import Mathlib

/-!
Shallow embedding of the emission-profiler telemetry pipeline
(`src/background.js`: class `PowerProfiler`; content script: class
`PagePowerMonitor`) and proofs about its specified behaviour.

JavaScript numbers are modelled by `JNum`: a finite rational, positive or
negative infinity, or NaN.  Exact decimal constants of the source
(`0.3`, `0.02`, `0.001`, `0.1`, `0.5`) are carried as rationals.
State-bearing methods become explicit state-passing functions; `Date.now()`
becomes a `now : Nat` parameter; a tick that throws inside `collectSample`'s
`try` block is modelled by an `err : Bool` flag selecting the `catch` path.
-/

/-- Model of a JavaScript number: finite rational, ±∞ or NaN. -/
inductive JNum where
  | fin (q : ℚ)
  | inf
  | ninf
  | nan
deriving DecidableEq, Repr

namespace JNum

/-- IEEE-style addition on the model (sign of zero ignored). -/
def add : JNum → JNum → JNum
  | nan, _ => nan
  | _, nan => nan
  | inf, ninf => nan
  | ninf, inf => nan
  | inf, _ => inf
  | _, inf => inf
  | ninf, _ => ninf
  | _, ninf => ninf
  | fin a, fin b => fin (a + b)

/-- IEEE-style multiplication on the model (sign of zero ignored). -/
def mul : JNum → JNum → JNum
  | nan, _ => nan
  | _, nan => nan
  | inf, inf => inf
  | inf, ninf => ninf
  | ninf, inf => ninf
  | ninf, ninf => inf
  | inf, fin b => if 0 < b then inf else if b < 0 then ninf else nan
  | fin a, inf => if 0 < a then inf else if a < 0 then ninf else nan
  | ninf, fin b => if 0 < b then ninf else if b < 0 then inf else nan
  | fin a, ninf => if 0 < a then ninf else if a < 0 then inf else nan
  | fin a, fin b => fin (a * b)

instance : Add JNum := ⟨add⟩
instance : Mul JNum := ⟨mul⟩

/-- `isNaN(x) || !isFinite(x)` of the source's validators. -/
def nonFinite : JNum → Bool
  | fin _ => false
  | _ => true

end JNum

/-- `PowerProfiler.validateNumber(value, min, max)`:
NaN/±∞ map to `lo`, finite values are clamped into `[lo, hi]`. -/
def validateNumber (value : JNum) (lo hi : ℚ) : ℚ :=
  match value with
  | .fin q => max lo (min hi q)
  | _ => lo

/-- `PowerProfiler.validatePower(power)`:
NaN/±∞ map to the 0.5 W default, finite values are clamped into `[0.1, 100]`. -/
def validatePower (power : JNum) : ℚ :=
  match power with
  | .fin q => max (1/10) (min 100 q)
  | _ => 1/2

/-- One per-tab row of the aggregated snapshot (`aggregated.tabs` entries). -/
structure TabInfo where
  tabId : ℕ
  cpu : ℚ
  memory : ℚ
  network : ℚ
  url : String
  domain : String
deriving DecidableEq, Repr

/-- The aggregated metrics object built by `aggregatePageMetrics` and consumed
by `estimatePower`.  The totals are `JNum` so that `estimatePower` can be
analysed on arbitrary (also non-finite) field values, as the claims require;
the aggregation itself only ever produces finite totals. -/
structure AggMetrics where
  cpuTotal : JNum
  memoryTotal : JNum
  networkTotal : JNum
  tabCount : ℕ
  tabs : List TabInfo
deriving DecidableEq, Repr

/-- `PowerProfiler.estimatePower(metrics)`: base `0.3 W * max(1, tabCount)`,
plus `0.02 W` per CPU percent, `0.001 W` per memory MB, `0.001 W` per network
event, plus a `0.1 W` active-tab boost when `tabs` is non-empty; the sum is
passed through `validatePower`. -/
def estimatePower (metrics : AggMetrics) : ℚ :=
  let base : JNum := .fin (3/10 * max 1 (metrics.tabCount : ℚ))
  let t0 : JNum := .fin 0 + base
  let t1 := t0 + metrics.cpuTotal * .fin (1/50)
  let t2 := t1 + metrics.memoryTotal * .fin (1/1000)
  let t3 := t2 + metrics.networkTotal * .fin (1/1000)
  let total := if metrics.tabs.length > 0 then t3 + .fin (1/10) else t3
  validatePower total

/-- `PowerProfiler.calculateCO2e(energyWh)` at intensity `co2Intensity`:
`(energyWh/1000) * intensity`, with a negative result replaced by 0
(the NaN/∞ guards of the source cannot fire on rationals). -/
def calculateCO2e (energyWh : ℚ) (co2Intensity : ℚ) : ℚ :=
  let co2 := energyWh / 1000 * co2Intensity
  if co2 < 0 then 0 else co2

/-- A validated per-tab metrics record as stored in `pageMetrics` by
`updatePageMetrics` (every numeric field already passed `validateNumber`). -/
structure TabEntry where
  timestamp : ℕ
  cpu : ℚ
  memory : ℚ
  network : ℚ
  power : ℚ
  url : String
  domain : String
deriving DecidableEq, Repr

/-- The raw metrics object a content script sends (field values after JS
`Number(...)` coercion, hence arbitrary `JNum`s — a non-number coerces to
NaN or some numeric value, all covered). -/
structure RawMetrics where
  cpu : JNum
  memory : JNum
  network : JNum
  power : JNum
  url : Option String
  domain : Option String
deriving DecidableEq, Repr

/-- One merged sample as pushed onto `this.samples` by `collectSample`.
`metrics` is `some` aggregated snapshot on the normal path and `none` for
the `{}` of the fallback sample. -/
structure Sample where
  timestamp : ℕ
  power : ℚ
  energy : ℚ
  co2e : ℚ
  metrics : Option AggMetrics
deriving DecidableEq, Repr

/-- The `PowerProfiler` instance state (fields of the constructor). -/
structure ProfilerState where
  samples : List Sample
  startTime : ℕ
  isProfiling : Bool
  intervalActive : Bool
  co2Intensity : ℚ
  metricsHistory : List Sample
  pageMetrics : List (ℕ × TabEntry)
deriving DecidableEq, Repr

/-- `new PowerProfiler()` at construction time `now`. -/
def initProfiler (now : ℕ) : ProfilerState :=
  { samples := []
    startTime := now
    isProfiling := false
    intervalActive := false
    co2Intensity := 475
    metricsHistory := []
    pageMetrics := [] }

/-- `PowerProfiler.aggregatePageMetrics()`: sums cpu/memory/network over every
entry of the `pageMetrics` table (no purging), counts the table size and lists
every tab. -/
def aggregatePageMetrics (tbl : List (ℕ × TabEntry)) : AggMetrics :=
  { cpuTotal := .fin ((tbl.map (fun e => e.2.cpu)).sum)
    memoryTotal := .fin ((tbl.map (fun e => e.2.memory)).sum)
    networkTotal := .fin ((tbl.map (fun e => e.2.network)).sum)
    tabCount := tbl.length
    tabs := tbl.map (fun e =>
      { tabId := e.1, cpu := e.2.cpu, memory := e.2.memory,
        network := e.2.network, url := e.2.url, domain := e.2.domain }) }

/-- The validated record `updatePageMetrics` builds from an incoming reading. -/
def validatedEntry (now : ℕ) (m : RawMetrics) : TabEntry :=
  { timestamp := now
    cpu := validateNumber m.cpu 0 100
    memory := validateNumber m.memory 0 10000
    network := validateNumber m.network 0 1000
    power := validateNumber m.power 0 100
    url := m.url.getD "unknown"
    domain := m.domain.getD "unknown" }

/-- `Map.set` on the insertion-ordered `pageMetrics` table: replace in place
if the key exists, else append. -/
def mapSet (tbl : List (ℕ × TabEntry)) (id : ℕ) (e : TabEntry) :
    List (ℕ × TabEntry) :=
  if tbl.any (fun p => p.1 = id) then
    tbl.map (fun p => if p.1 = id then (id, e) else p)
  else
    tbl ++ [(id, e)]

/-- `PowerProfiler.updatePageMetrics(tabId, metrics)`: store the validated
record, then delete every entry whose timestamp is more than 5000 ms old. -/
def updatePageMetrics (now : ℕ) (tabId : ℕ) (m : RawMetrics)
    (st : ProfilerState) : ProfilerState :=
  let entry := validatedEntry now m
  let tbl := mapSet st.pageMetrics tabId entry
  { st with pageMetrics := tbl.filter (fun p => now - p.2.timestamp ≤ 5000) }

/-- `PowerProfiler.addToHistory(sample)`: revalidate the sample, append it to
`metricsHistory` and drop the oldest entry past `maxHistorySize = 1000`. -/
def addToHistory (sample : Sample) (history : List Sample) : List Sample :=
  let validated : Sample :=
    { timestamp := sample.timestamp
      power := validatePower (.fin sample.power)
      energy := validateNumber (.fin sample.energy) 0 100
      co2e := validateNumber (.fin sample.co2e) 0 1000
      metrics := sample.metrics }
  let h := history ++ [validated]
  if h.length > 1000 then h.drop 1 else h

/-- The default sample the `catch` branch of `collectSample` builds:
power 0.5 W, energy `0.5/3600` Wh, matching co2e, empty metrics. -/
def fallbackSample (now : ℕ) (co2Intensity : ℚ) : Sample :=
  { timestamp := now
    power := 1/2
    energy := 1/2 / 3600
    co2e := calculateCO2e (1/2 / 3600) co2Intensity
    metrics := none }

/-- The `if (this.samples.length > 3600) this.samples.shift()` trim of the
normal path of `collectSample`. -/
def trimSamples (l : List Sample) : List Sample :=
  if l.length > 3600 then l.drop 1 else l

/-- The sample the normal (`try`) path of `collectSample` builds at time
`now` from the current state. -/
def normalSample (now : ℕ) (st : ProfilerState) : Sample :=
  let aggregatedMetrics := aggregatePageMetrics st.pageMetrics
  let validatedPower := validatePower (.fin (estimatePower aggregatedMetrics))
  { timestamp := now
    power := validatedPower
    energy := validatedPower / 3600
    co2e := calculateCO2e (validatedPower / 3600) st.co2Intensity
    metrics := some aggregatedMetrics }

/-- `PowerProfiler.collectSample()` at wall-clock time `now`; `err = true`
selects the `catch` path (an exception inside the `try` block).  The normal
path aggregates, estimates and validates power, pushes the sample onto
`samples` and `metricsHistory`, then trims `samples` past 3600; the `catch`
path pushes the fallback sample onto `samples` only, without trimming. -/
def collectSample (now : ℕ) (err : Bool) (st : ProfilerState) : ProfilerState :=
  if err then
    { st with samples := st.samples ++ [fallbackSample now st.co2Intensity] }
  else
    let sample := normalSample now st
    { st with
        samples := trimSamples (st.samples ++ [sample])
        metricsHistory := addToHistory sample st.metricsHistory }

/-- The summary object returned by `getSummary` / `stopProfiling`. -/
structure Summary where
  totalEnergy : ℚ
  totalCO2e : ℚ
  avgPower : ℚ
  duration : ℚ
  sampleCount : ℕ
  samples : List Sample
deriving DecidableEq, Repr

/-- `PowerProfiler.getSummary()`: filter valid samples (positive validated
power, non-NaN energy/co2e — on rationals the NaN tests are vacuous), sum
validated energy and co2e, derive average power and duration. -/
def getSummary (st : ProfilerState) : Summary :=
  if st.samples = [] then
    { totalEnergy := 0, totalCO2e := 0, avgPower := 0, duration := 0,
      sampleCount := 0, samples := [] }
  else
    let validSamples := st.samples.filter
      (fun s => 0 < validatePower (.fin s.power))
    if validSamples = [] then
      { totalEnergy := 0, totalCO2e := 0, avgPower := 0, duration := 0,
        sampleCount := 0, samples := [] }
    else
      let totalEnergy :=
        (validSamples.map (fun s => validateNumber (.fin s.energy) 0 100)).sum
      let totalCO2e :=
        (validSamples.map (fun s => validateNumber (.fin s.co2e) 0 1000)).sum
      let avgPower := totalEnergy / ((validSamples.length : ℚ) / 3600)
      let duration :=
        (((validSamples.getLast?.map Sample.timestamp).getD 0 -
          ((validSamples.head?.map Sample.timestamp).getD 0) : ℕ) : ℚ) / 1000
      { totalEnergy := totalEnergy
        totalCO2e := totalCO2e
        avgPower := validatePower (.fin avgPower)
        duration := duration
        sampleCount := validSamples.length
        samples := validSamples }

/-- `PowerProfiler.startProfiling()` at time `now`: a no-op while already
profiling; otherwise reset `startTime` and `samples` and start the sampling
interval timer. -/
def startProfiling (now : ℕ) (st : ProfilerState) : ProfilerState :=
  if st.isProfiling then st
  else
    { st with isProfiling := true, startTime := now, samples := [],
              intervalActive := true }

/-- `PowerProfiler.stopProfiling()`: a no-op returning no summary while not
profiling; otherwise stop the timer and return `getSummary`. -/
def stopProfiling (st : ProfilerState) : ProfilerState × Option Summary :=
  if st.isProfiling = false then (st, none)
  else
    ({ st with isProfiling := false, intervalActive := false },
     some (getSummary st))

/-- A `{value, unit, precision}` triple produced by the formatters. -/
structure FormattedValue where
  value : ℚ
  unit : String
  precision : ℕ
deriving DecidableEq, Repr

/-- `PowerProfiler.formatPowerValue(power)`: validate (clamp into
`[0.1, 100]`, NaN/∞ → 0.5), then pick kW/W/mW/µW by thresholds. -/
def formatPowerValue (power : JNum) : FormattedValue :=
  let validatedPower := validatePower power
  if validatedPower ≥ 1000 then
    ⟨validatedPower / 1000, "kW", 3⟩
  else if validatedPower ≥ 1 then
    ⟨validatedPower, "W", 3⟩
  else if validatedPower ≥ 1/1000 then
    ⟨validatedPower * 1000, "mW", 3⟩
  else
    ⟨validatedPower * 1000000, "µW", 0⟩

/-- `PowerProfiler.formatEnergyValue(energy)`: validate (clamp into
`[0, 1000000]`, NaN/∞ → 0), then pick kWh/Wh/mWh/µWh by thresholds. -/
def formatEnergyValue (energy : JNum) : FormattedValue :=
  let validatedEnergy := validateNumber energy 0 1000000
  if validatedEnergy ≥ 1000 then
    ⟨validatedEnergy / 1000, "kWh", 3⟩
  else if validatedEnergy ≥ 1 then
    ⟨validatedEnergy, "Wh", 3⟩
  else if validatedEnergy ≥ 1/1000 then
    ⟨validatedEnergy * 1000, "mWh", 3⟩
  else
    ⟨validatedEnergy * 1000000, "µWh", 0⟩

/-!
Content-script side (`PagePowerMonitor`): the resilient channel.  Payloads
(metrics objects) are identified by naturals; JS object identity, which
`Array.prototype.indexOf` compares by, is modelled as equality of these
identifiers.  The outcome of one delivery attempt is supplied by an
environment function `deliver : ℕ → Bool` (`true` = a non-null response). -/

/-- Producer-side channel state of a `PagePowerMonitor` instance. -/
structure ChanState where
  isConnected : Bool
  pendingMetrics : List ℕ
  reconnectionAttempts : ℕ
deriving DecidableEq, Repr

/-- `maxPendingMetrics` of the constructor. -/
def maxPendingMetrics : ℕ := 10

/-- `maxReconnectionAttempts` of the constructor. -/
def maxReconnectionAttempts : ℕ := 5

/-- `PagePowerMonitor.cacheMetrics(metrics)`: push, then drop the oldest
entry past `maxPendingMetrics`. -/
def cacheMetrics (pending : List ℕ) (p : ℕ) : List ℕ :=
  let pushed := pending ++ [p]
  if pushed.length > maxPendingMetrics then pushed.drop 1 else pushed

/-- `PagePowerMonitor.scheduleReconnection()`: once `reconnectionAttempts`
has reached `maxReconnectionAttempts`, return without scheduling (`none`);
otherwise increment the counter and schedule a probe after
`min(1000 * 2^attempt, 30000)` ms (`some delay`). -/
def scheduleReconnection (st : ChanState) : ChanState × Option ℕ :=
  if st.reconnectionAttempts ≥ maxReconnectionAttempts then (st, none)
  else
    let attempts := st.reconnectionAttempts + 1
    ({ st with reconnectionAttempts := attempts },
     some (min (1000 * 2 ^ attempts) 30000))

/-- `PagePowerMonitor.checkConnection()` with probe outcome `alive`
(`true` = the ping got a non-null response): success sets `isConnected` and
resets `reconnectionAttempts` to 0; failure clears `isConnected`. -/
def checkConnection (alive : Bool) (st : ChanState) : ChanState × Bool :=
  if alive then
    ({ st with isConnected := true, reconnectionAttempts := 0 }, true)
  else
    ({ st with isConnected := false }, false)

/-- `PagePowerMonitor.sendMetrics(metrics)` without its tail flush (during a
flush the pending buffer is empty on every success, so the recursive
`flushPendingMetrics` call is a no-op there): a null response caches the
payload, marks the channel disconnected and runs `scheduleReconnection`;
a non-null response reports success. -/
def sendMetricsStep (deliver : ℕ → Bool) (p : ℕ) (st : ChanState) :
    ChanState × Bool :=
  if deliver p then (st, true)
  else
    let st1 := { st with isConnected := false,
                         pendingMetrics := cacheMetrics st.pendingMetrics p }
    ((scheduleReconnection st1).1, false)

/-- The `for (const metric of metricsToSend)` loop of `flushPendingMetrics`:
on a failed send it appends `metricsToSend.slice(metricsToSend.indexOf(metric))`
to the pending buffer (already holding the copy cached by `sendMetrics`) and
breaks. -/
def flushLoop (deliver : ℕ → Bool) (metricsToSend : List ℕ) :
    List ℕ → ChanState → ChanState
  | [], st => st
  | p :: rest, st =>
    let res := sendMetricsStep deliver p st
    if res.2 then flushLoop deliver metricsToSend rest res.1
    else
      { res.1 with pendingMetrics :=
          res.1.pendingMetrics ++ metricsToSend.drop (metricsToSend.indexOf p) }

/-- `PagePowerMonitor.flushPendingMetrics()`: no-op when disconnected or
empty; otherwise snapshot the buffer, clear it, and run the send loop. -/
def flushPendingMetrics (deliver : ℕ → Bool) (st : ChanState) : ChanState :=
  if st.isConnected = false ∨ st.pendingMetrics = [] then st
  else
    let metricsToSend := st.pendingMetrics
    flushLoop deliver metricsToSend metricsToSend
      { st with pendingMetrics := [] }

/-- One schedule-then-failed-probe cycle of the automatic reconnection loop
(`scheduleReconnection`'s timer firing a `checkConnection` that fails). -/
def failedProbeCycle (st : ChanState) : ChanState :=
  (checkConnection false (scheduleReconnection st).1).1

/-- Modelled from the claim's words (C7, for comparison with the source's
`estimatePower`): the additive aggregate formula — 0.3 W per source, 0.02 W
per CPU percent, 0.001 W per memory MB, 0.001 W per network event, plus a
fixed 0.1 W boost when at least one source is present — with the clamp into
`[0.1, 100]` applied as the last step, so an infinite sum clamps to the
respective bound (the claim asserts the result is never NaN; a NaN sum is
sent to the clamp floor here, which the refutation below does not rely on). -/
def claimedAggregatePower (m : AggMetrics) : ℚ :=
  let total : JNum :=
    .fin (3/10 * (m.tabCount : ℚ))
      + m.cpuTotal * .fin (1/50)
      + m.memoryTotal * .fin (1/1000)
      + m.networkTotal * .fin (1/1000)
      + (if 0 < m.tabCount then .fin (1/10) else .fin 0)
  match total with
  | .fin q => max (1/10) (min 100 q)
  | .inf => 100
  | .ninf => 1/10
  | .nan => 1/10

/-!  Helper lemmas  -/

/-- Trimming a freshly pushed list still ends with the pushed element. -/
theorem trimSamples_getLast?_concat (l : List Sample) (s : Sample) :
    (trimSamples (l ++ [s])).getLast? = some s := by
  unfold trimSamples
  by_cases h : (l ++ [s]).length > 3600
  · simp only [h, if_true]
    rw [List.drop_append_of_le_length
      (by simp only [List.length_append, List.length_singleton] at h; omega)]
    exact List.getLast?_concat _
  · simp only [h, if_false]
    exact List.getLast?_concat _

/-- The erroring path of `collectSample` only appends the fallback sample. -/
theorem collectSample_err (now : ℕ) (st : ProfilerState) :
    collectSample now true st
      = { st with samples := st.samples ++ [fallbackSample now st.co2Intensity] } :=
  rfl

/-- The normal path of `collectSample`: push the normal sample and trim. -/
theorem collectSample_ok (now : ℕ) (st : ProfilerState) :
    collectSample now false st
      = { st with
            samples := trimSamples (st.samples ++ [normalSample now st])
            metricsHistory := addToHistory (normalSample now st) st.metricsHistory } :=
  rfl

/-- Every tick appends exactly one sample, stamped with the tick's time,
whose energy is `power / 3600`. -/
theorem collectSample_getLast (now : ℕ) (err : Bool) (st : ProfilerState) :
    ∃ s : Sample, (collectSample now err st).samples.getLast? = some s
      ∧ s.timestamp = now ∧ s.energy = s.power / 3600 := by
  cases err with
  | true =>
    refine ⟨fallbackSample now st.co2Intensity, ?_, rfl, rfl⟩
    rw [collectSample_err]
    exact List.getLast?_concat _
  | false =>
    refine ⟨normalSample now st, ?_, rfl, rfl⟩
    rw [collectSample_ok]
    exact trimSamples_getLast?_concat _ _

/-- The length of the trimmed push. -/
theorem trimSamples_concat_length (l : List Sample) (s : Sample) :
    (trimSamples (l ++ [s])).length
      = if l.length + 1 > 3600 then l.length else l.length + 1 := by
  unfold trimSamples
  rw [List.length_append, List.length_singleton]
  by_cases h : l.length + 1 > 3600
  · rw [if_pos h, if_pos h, List.length_drop, List.length_append,
      List.length_singleton]
    omega
  · rw [if_neg h, if_neg h, List.length_append, List.length_singleton]

/-- A list not exceeding the capacity is left untouched by the trim. -/
theorem trimSamples_of_le (l : List Sample) (h : l.length ≤ 3600) :
    trimSamples l = l := by
  unfold trimSamples
  rw [if_neg (by omega)]

/-- `JNum` addition on two finite values. -/
theorem JNum.fin_add_fin (a b : ℚ) :
    JNum.fin a + JNum.fin b = JNum.fin (a + b) := rfl

/-- `JNum` multiplication on two finite values. -/
theorem JNum.fin_mul_fin (a b : ℚ) :
    JNum.fin a * JNum.fin b = JNum.fin (a * b) := rfl

/-- `validatePower` on a finite value is the clamp into `[0.1, 100]`. -/
theorem validatePower_fin (q : ℚ) :
    validatePower (.fin q) = max (1/10) (min 100 q) := rfl

/-- `validateNumber` on a finite value is the clamp into `[lo, hi]`. -/
theorem validateNumber_fin (q lo hi : ℚ) :
    validateNumber (.fin q) lo hi = max lo (min hi q) := rfl

/-- With an empty source table the power estimate is the 0.3 W base. -/
theorem estimatePower_empty :
    estimatePower (aggregatePageMetrics []) = 3/10 := by
  have h : estimatePower (aggregatePageMetrics [])
      = validatePower (.fin (3/10)) := by
    unfold estimatePower aggregatePageMetrics
    norm_num [JNum.fin_add_fin, JNum.fin_mul_fin]
  rw [h, validatePower_fin]
  norm_num [min_def, max_def]

/-- `n` successful ticks from a fresh profiler leave exactly `min n 3600`
samples. -/
theorem okTicks_length (n : ℕ) :
    (((collectSample 0 false)^[n] (initProfiler 0)).samples).length
      = min n 3600 := by
  induction n with
  | zero => simp [initProfiler]
  | succ n ih =>
    rw [Function.iterate_succ_apply', collectSample_ok,
      trimSamples_concat_length, ih]
    split <;> omega

/-!  Claim theorems  -/

/-- C1 (counterexample): two consecutive successful ticks 2 seconds apart
(at times 0 ms and 2000 ms) append a second sample whose power is 0.3 W and
whose energy is `0.3/3600 = 1/12000` Wh — not `0.3 * 2/3600` Wh as the
claim's elapsed-time formula would require. -/
theorem C1_energy_fixed_counterexample :
    ((collectSample 2000 false (collectSample 0 false
        (initProfiler 0))).samples.getLast?).map (fun s => (s.power, s.energy))
      = some (3/10, 1/12000)
    ∧ (1/12000 : ℚ) ≠ 3/10 * 2 / 3600 := by
  constructor
  · have hpm : (collectSample 0 false (initProfiler 0)).pageMetrics = [] := rfl
    rw [collectSample_ok, trimSamples_getLast?_concat]
    simp only [Option.map_some', normalSample, hpm, estimatePower_empty,
      validatePower_fin]
    norm_num [min_def, max_def]
  · norm_num

/-- C1 (amended): every tick appends a sample whose `energy` field equals
`power / 3600`, a fixed per-tick constant that assumes a 1-second interval,
irrespective of the wall-clock time `now` of the tick and hence of the
elapsed time since the previous tick. -/
theorem C1_energy_is_power_over_3600 (now : ℕ) (err : Bool)
    (st : ProfilerState) :
    ∃ s : Sample, (collectSample now err st).samples.getLast? = some s
      ∧ s.energy = s.power / 3600 := by
  obtain ⟨s, h1, _, h3⟩ := collectSample_getLast now err st
  exact ⟨s, h1, h3⟩

/-- C2: an erroring tick appends exactly the documented fallback sample
(power 0.5 W, energy `0.5/3600` Wh, matching co2e, empty metrics) to the
samples history in place of the normal sample, and every tick — failing or
not — appends exactly one sample stamped with that tick's time, so the
history has no missing tick while profiling is active. -/
theorem C2_fallback_sample_no_gap (now : ℕ) (st : ProfilerState) :
    ((collectSample now true st).samples
        = st.samples ++ [fallbackSample now st.co2Intensity]
      ∧ (fallbackSample now st.co2Intensity).power = 1/2
      ∧ (fallbackSample now st.co2Intensity).energy = 1/2 / 3600
      ∧ (fallbackSample now st.co2Intensity).co2e
          = calculateCO2e (1/2 / 3600) st.co2Intensity)
    ∧ ∀ e : Bool, ∃ s : Sample,
        (collectSample now e st).samples.getLast? = some s
        ∧ s.timestamp = now := by
  refine ⟨⟨by rw [collectSample_err], rfl, rfl, rfl⟩, ?_⟩
  intro e
  obtain ⟨s, h1, h2, _⟩ := collectSample_getLast now e st
  exact ⟨s, h1, h2⟩

/-- C3: after 3600 successful ticks the samples history holds 3600 samples;
one further erroring tick takes the `catch` path, which pushes the fallback
sample without the capacity trim, leaving 3601 samples — exceeding the
3600-sample bound the history is documented to keep. -/
theorem C3_capacity_exceeded_on_error_tick :
    ((collectSample 0 true ((collectSample 0 false)^[3600]
        (initProfiler 0))).samples).length = 3601
    ∧ 3600 < ((collectSample 0 true ((collectSample 0 false)^[3600]
        (initProfiler 0))).samples).length := by
  have h : ((collectSample 0 true ((collectSample 0 false)^[3600]
      (initProfiler 0))).samples).length = 3601 := by
    rw [collectSample_err]
    show ((((collectSample 0 false)^[3600] (initProfiler 0)).samples
      ++ [_]).length) = 3601
    rw [List.length_append, okTicks_length, List.length_singleton]
    omega
  exact ⟨h, by omega⟩

/-- A successful send inside the flush loop leaves the state untouched. -/
theorem sendMetricsStep_ok (deliver : ℕ → Bool) (p : ℕ) (st : ChanState)
    (h : deliver p = true) :
    sendMetricsStep deliver p st = (st, true) := by
  unfold sendMetricsStep
  rw [if_pos h]

/-- The flush loop skips over a prefix of successfully delivered payloads
without touching the state. -/
theorem flushLoop_ok_prefix (deliver : ℕ → Bool) (metricsToSend : List ℕ)
    (l₁ rest : List ℕ) (st : ChanState) (h : ∀ q ∈ l₁, deliver q = true) :
    flushLoop deliver metricsToSend (l₁ ++ rest) st
      = flushLoop deliver metricsToSend rest st := by
  induction l₁ with
  | nil => rfl
  | cons a l ih =>
    have ha : deliver a = true := h a (List.mem_cons_self a l)
    rw [List.cons_append]
    show (let res := sendMetricsStep deliver a st;
      if res.2 then flushLoop deliver metricsToSend (l ++ rest) res.1
      else { res.1 with pendingMetrics := res.1.pendingMetrics
        ++ metricsToSend.drop (metricsToSend.indexOf a) }) = _
    rw [sendMetricsStep_ok deliver a st ha]
    exact ih (fun q hq => h q (List.mem_cons_of_mem a hq))

/-- A failed send inside the flush loop caches the payload, disconnects and
bumps the reconnection schedule. -/
theorem sendMetricsStep_fail (deliver : ℕ → Bool) (p : ℕ) (st : ChanState)
    (h : deliver p = false) :
    sendMetricsStep deliver p st
      = ((scheduleReconnection
          ⟨false, cacheMetrics st.pendingMetrics p,
            st.reconnectionAttempts⟩).1, false) := by
  unfold sendMetricsStep
  rw [if_neg (by simp [h])]

/-- `scheduleReconnection` never touches the pending buffer. -/
theorem scheduleReconnection_pending (st : ChanState) :
    (scheduleReconnection st).1.pendingMetrics = st.pendingMetrics := by
  unfold scheduleReconnection
  by_cases h : st.reconnectionAttempts ≥ maxReconnectionAttempts <;> simp [h]

/-- The pending buffer after the flush loop hits a failing payload at its
head: the copy cached by `sendMetrics` followed by the
`slice(indexOf(metric))` push. -/
theorem flushLoop_fail_head (deliver : ℕ → Bool) (metricsToSend rest : List ℕ)
    (p : ℕ) (st : ChanState) (h : deliver p = false) :
    (flushLoop deliver metricsToSend (p :: rest) st).pendingMetrics
      = cacheMetrics st.pendingMetrics p
        ++ metricsToSend.drop (metricsToSend.indexOf p) := by
  simp only [flushLoop, sendMetricsStep_fail deliver p st h]
  simp [scheduleReconnection_pending]

/-- C4 (counterexample): flushing the 3 buffered payloads `[1, 2, 3]` when
the 2nd delivery fails leaves `[2, 2, 3]` re-buffered — the failed payload
appears twice (cached once by `sendMetrics`' failure handler and once by the
flush loop's slice push), not the claimed `[2, 3]` with each payload once. -/
theorem C4_flush_duplicates_counterexample :
    (flushPendingMetrics (fun p => p != 2)
        { isConnected := true, pendingMetrics := [1, 2, 3],
          reconnectionAttempts := 0 }).pendingMetrics = [2, 2, 3]
    ∧ [2, 2, 3] ≠ [2, 3] := by
  exact ⟨rfl, by decide⟩

/-- C4 (amended): flushing a pending buffer `l₁ ++ p :: l₂` whose prefix
`l₁` delivers and whose payload `p` (not occurring in `l₁`) fails, stops and
leaves exactly `p :: p :: l₂` re-buffered: the failed payload twice — once
cached by `sendMetrics`' failure handler, once by the flush loop's
`slice(indexOf(..))` push — followed by the not-yet-sent payloads in their
original order. -/
theorem C4_failed_flush_rebuffers (deliver : ℕ → Bool)
    (l₁ l₂ : List ℕ) (p : ℕ) (st : ChanState)
    (hconn : st.isConnected = true)
    (hpend : st.pendingMetrics = l₁ ++ p :: l₂)
    (hnotmem : p ∉ l₁)
    (hok : ∀ q ∈ l₁, deliver q = true)
    (hfail : deliver p = false) :
    (flushPendingMetrics deliver st).pendingMetrics = p :: p :: l₂ := by
  have hne : ¬(st.isConnected = false ∨ st.pendingMetrics = []) := by
    simp [hconn, hpend]
  simp only [flushPendingMetrics]
  rw [if_neg hne, hpend, flushLoop_ok_prefix deliver _ l₁ (p :: l₂) _ hok,
    flushLoop_fail_head deliver _ l₂ p _ hfail,
    List.indexOf_append_of_not_mem hnotmem, List.indexOf_cons_self,
    Nat.add_zero, List.drop_left]
  show cacheMetrics [] p ++ p :: l₂ = p :: p :: l₂
  simp [cacheMetrics, maxPendingMetrics]

/-- C4 witness: flushing `[5, 7, 9]` when the delivery of 7 fails leaves
`[7, 7, 9]` re-buffered. -/
theorem C4_failed_flush_rebuffers_witness :
    (flushPendingMetrics (fun q => q != 7)
        { isConnected := true, pendingMetrics := [5, 7, 9],
          reconnectionAttempts := 0 }).pendingMetrics = [7, 7, 9] :=
  C4_failed_flush_rebuffers (fun q => q != 7) [5] [9] 7
    { isConnected := true, pendingMetrics := [5, 7, 9],
      reconnectionAttempts := 0 }
    rfl rfl (by decide) (by decide) (by decide)

/-- C5 (counterexample): with a single source last seen at time 0 still in
the table, a tick at time 10000 ms (10 s later) aggregates a snapshot that
still counts that stale source (`tabCount = 1`), whereas the claim requires
sources older than 5000 ms to be purged before aggregation (`tabCount = 0`). -/
theorem C5_no_purge_on_tick_counterexample :
    (((collectSample 10000 false
        { initProfiler 0 with
            pageMetrics := [(1, ⟨0, 50, 100, 5, 2, "u", "d"⟩)] }).samples.getLast?).map
      (fun s => s.metrics.map AggMetrics.tabCount)) = some (some 1)
    ∧ (1 : ℕ) ≠ 0 := by
  constructor
  · rw [collectSample_ok, trimSamples_getLast?_concat]
    rfl
  · decide

/-- C5 (amended): the staleness purge (entries whose timestamp is more than
5000 ms old) happens during `updatePageMetrics` — i.e. on ingest, right
after the incoming reading is stored — not on a tick: after any ingest at
time `now` every remaining table entry is at most 5000 ms old, while the
snapshot computed by a tick (`aggregatePageMetrics`) sums over every entry
of the table as it stands, however stale. -/
theorem C5_purge_on_ingest_not_on_tick (now tabId : ℕ) (m : RawMetrics)
    (st : ProfilerState) :
    (∀ e ∈ (updatePageMetrics now tabId m st).pageMetrics,
        now - e.2.timestamp ≤ 5000)
    ∧ (∀ tbl : List (ℕ × TabEntry),
        (aggregatePageMetrics tbl).tabCount = tbl.length
        ∧ (aggregatePageMetrics tbl).tabs.length = tbl.length) := by
  constructor
  · intro e he
    have h := List.of_mem_filter
      (show e ∈ (mapSet st.pageMetrics tabId (validatedEntry now m)).filter
          (fun p => now - p.2.timestamp ≤ 5000) from he)
    simpa using h
  · intro tbl
    exact ⟨rfl, by simp [aggregatePageMetrics]⟩

/-- C5 witness: ingesting a reading at time 10000 into a table holding an
entry from time 9000 keeps that entry, and it is at most 5000 ms old;
aggregating a 1-entry table reports 1 source. -/
theorem C5_purge_on_ingest_witness :
    (10000 : ℕ) -
      ((3, ⟨9000, 1, 1, 1, 1, "a", "b"⟩) : ℕ × TabEntry).2.timestamp ≤ 5000
    ∧ (aggregatePageMetrics [(1, ⟨0, 50, 100, 5, 2, "u", "d"⟩)]).tabCount = 1 := by
  constructor
  · refine (C5_purge_on_ingest_not_on_tick 10000 7
      ⟨.fin 150, .fin (-5), .nan, .inf, none, none⟩
      { initProfiler 0 with
          pageMetrics := [(3, ⟨9000, 1, 1, 1, 1, "a", "b"⟩)] }).1
      (3, ⟨9000, 1, 1, 1, 1, "a", "b"⟩) ?_
    show (3, (⟨9000, 1, 1, 1, 1, "a", "b"⟩ : TabEntry))
      ∈ (updatePageMetrics 10000 7
          ⟨.fin 150, .fin (-5), .nan, .inf, none, none⟩
          { initProfiler 0 with
              pageMetrics := [(3, ⟨9000, 1, 1, 1, 1, "a", "b"⟩)] }).pageMetrics
    rw [show (updatePageMetrics 10000 7
        ⟨.fin 150, .fin (-5), .nan, .inf, none, none⟩
        { initProfiler 0 with
            pageMetrics := [(3, ⟨9000, 1, 1, 1, 1, "a", "b"⟩)] }).pageMetrics
      = [(3, ⟨9000, 1, 1, 1, 1, "a", "b"⟩),
         (7, validatedEntry 10000
            ⟨.fin 150, .fin (-5), .nan, .inf, none, none⟩)] from rfl]
    exact List.mem_cons_self _ _
  · exact ((C5_purge_on_ingest_not_on_tick 0 0
      ⟨.nan, .nan, .nan, .nan, none, none⟩ (initProfiler 0)).2
      [(1, ⟨0, 50, 100, 5, 2, "u", "d"⟩)]).1

/-- A failed cycle advances the attempt counter by one, up to the cap. -/
theorem failedProbeCycle_attempts (st : ChanState) :
    (failedProbeCycle st).reconnectionAttempts
      = min (st.reconnectionAttempts + 1) (max st.reconnectionAttempts 5) := by
  unfold failedProbeCycle scheduleReconnection checkConnection
    maxReconnectionAttempts
  by_cases h5 : 5 ≤ st.reconnectionAttempts
  · rw [if_pos h5]
    simp only [Bool.false_eq_true, if_false]
    omega
  · rw [if_neg h5]
    simp only [Bool.false_eq_true, if_false]
    omega

/-- Iterated failed cycles: the counter climbs to 5 and stays there. -/
theorem failedProbeCycle_iterate (st : ChanState) (n : ℕ) :
    (failedProbeCycle^[n] st).reconnectionAttempts
      = min (st.reconnectionAttempts + n) (max st.reconnectionAttempts 5) := by
  induction n with
  | zero => simp
  | succ n ih =>
    rw [Function.iterate_succ_apply', failedProbeCycle_attempts, ih]
    omega

/-- C6: once the attempt counter has reached `maxReconnectionAttempts = 5`,
`scheduleReconnection` returns without scheduling any probe and leaves the
state unchanged; a manual `checkConnection` probe that succeeds always sets
`isConnected` and resets the counter to 0; and starting from a fresh counter,
five consecutive failed automatic probe cycles drive the counter to 5, after
which the next `scheduleReconnection` schedules nothing. -/
theorem C6_reconnection_cap_and_manual_reset (st : ChanState) :
    (5 ≤ st.reconnectionAttempts → scheduleReconnection st = (st, none))
    ∧ ((checkConnection true st).1.isConnected = true
        ∧ (checkConnection true st).1.reconnectionAttempts = 0)
    ∧ (st.reconnectionAttempts = 0 →
        (failedProbeCycle^[5] st).reconnectionAttempts = 5
        ∧ (scheduleReconnection (failedProbeCycle^[5] st)).2 = none) := by
  refine ⟨?_, ⟨rfl, rfl⟩, ?_⟩
  · intro h
    unfold scheduleReconnection
    rw [if_pos (by simpa [maxReconnectionAttempts] using h)]
  · intro h0
    have hatt : (failedProbeCycle^[5] st).reconnectionAttempts = 5 := by
      rw [failedProbeCycle_iterate, h0]
      omega
    refine ⟨hatt, ?_⟩
    unfold scheduleReconnection
    rw [if_pos (by rw [hatt]; norm_num [maxReconnectionAttempts])]

/-- C6 witness: at attempt counter 5 nothing is scheduled; a successful
manual probe reconnects and resets; five failed cycles from 0 reach 5. -/
theorem C6_reconnection_cap_witness :
    scheduleReconnection ⟨false, [], 5⟩ = (⟨false, [], 5⟩, none)
    ∧ (checkConnection true ⟨false, [], 3⟩).1.reconnectionAttempts = 0
    ∧ (failedProbeCycle^[5] ⟨false, [], 0⟩).reconnectionAttempts = 5 :=
  ⟨(C6_reconnection_cap_and_manual_reset ⟨false, [], 5⟩).1 (by norm_num),
   (C6_reconnection_cap_and_manual_reset ⟨false, [], 3⟩).2.1.2,
   ((C6_reconnection_cap_and_manual_reset ⟨false, [], 0⟩).2.2 rfl).1⟩


/-- Finite plus `+∞` is `+∞`. -/
theorem JNum.fin_add_inf (a : ℚ) : JNum.fin a + JNum.inf = JNum.inf := rfl

/-- `+∞` plus finite is `+∞`. -/
theorem JNum.inf_add_fin (a : ℚ) : JNum.inf + JNum.fin a = JNum.inf := rfl

/-- `+∞` times a positive finite value is `+∞`. -/
theorem JNum.inf_mul_fin_pos (b : ℚ) (h : 0 < b) :
    JNum.inf * JNum.fin b = JNum.inf := by
  show JNum.mul JNum.inf (JNum.fin b) = JNum.inf
  simp only [JNum.mul]
  rw [if_pos h]

/-- `validatePower` always lands in `[0.1, 100]`. -/
theorem validatePower_bounds (j : JNum) :
    1/10 ≤ validatePower j ∧ validatePower j ≤ 100 := by
  cases j with
  | fin q => exact ⟨le_max_left _ _, max_le (by norm_num) (min_le_left _ _)⟩
  | inf => exact ⟨by norm_num [validatePower], by norm_num [validatePower]⟩
  | ninf => exact ⟨by norm_num [validatePower], by norm_num [validatePower]⟩
  | nan => exact ⟨by norm_num [validatePower], by norm_num [validatePower]⟩

/-- `validateNumber` always lands in `[lo, hi]` when the domain is sane. -/
theorem validateNumber_bounds (j : JNum) (lo hi : ℚ) (h : lo ≤ hi) :
    lo ≤ validateNumber j lo hi ∧ validateNumber j lo hi ≤ hi := by
  cases j with
  | fin q => exact ⟨le_max_left _ _, max_le h (min_le_left _ _)⟩
  | inf => exact ⟨le_refl _, h⟩
  | ninf => exact ⟨le_refl _, h⟩
  | nan => exact ⟨le_refl _, h⟩

/-- C7 (counterexample): on a metrics object whose CPU total is `+∞` (one
source present, other totals 0), `estimatePower` returns the 0.5 W
`validatePower` fallback, whereas the claim's additive formula with the
clamp into `[0.1, 100]` applied as the last step yields the clamp ceiling
100 W. -/
theorem C7_nonfinite_counterexample :
    estimatePower ⟨.inf, .fin 0, .fin 0, 1, [⟨1, 0, 0, 0, "u", "d"⟩]⟩ = 1/2
    ∧ claimedAggregatePower
        ⟨.inf, .fin 0, .fin 0, 1, [⟨1, 0, 0, 0, "u", "d"⟩]⟩ = 100
    ∧ (1/2 : ℚ) ≠ 100 := by
  refine ⟨?_, ?_, by norm_num⟩
  · unfold estimatePower
    norm_num [JNum.fin_add_fin, JNum.fin_mul_fin,
      JNum.inf_mul_fin_pos (1/50) (by norm_num),
      JNum.fin_add_inf, JNum.inf_add_fin, validatePower]
  · unfold claimedAggregatePower
    norm_num [JNum.fin_add_fin, JNum.fin_mul_fin,
      JNum.inf_mul_fin_pos (1/50) (by norm_num),
      JNum.fin_add_inf, JNum.inf_add_fin]

/-- C7 (amended): on finite inputs `estimatePower` is exactly the additive
formula — base `0.3 * max(1, sourceCount)`, `0.02` per CPU percent, `0.001`
per memory MB, `0.001` per network event, `0.1` boost when a source is
present — clamped into `[0.1, 100]` as the last step; and on every input,
finite or not, the result lies in `[0.1, 100]` (in particular it is a
rational, never NaN). -/
theorem C7_estimate_formula_and_bounds (q₁ q₂ q₃ : ℚ) (n : ℕ)
    (tabs : List TabInfo) (m : AggMetrics) :
    estimatePower ⟨.fin q₁, .fin q₂, .fin q₃, n, tabs⟩
      = max (1/10) (min 100
          (3/10 * max 1 (n : ℚ) + q₁ * (1/50) + q₂ * (1/1000) + q₃ * (1/1000)
            + (if 0 < tabs.length then 1/10 else 0)))
    ∧ 1/10 ≤ estimatePower m ∧ estimatePower m ≤ 100 := by
  refine ⟨?_, ?_⟩
  · unfold estimatePower
    by_cases ht : 0 < tabs.length
    · rw [if_pos ht]
      simp only [JNum.fin_add_fin, JNum.fin_mul_fin, validatePower_fin,
        if_pos ht]
      ring_nf
    · rw [if_neg ht]
      simp only [JNum.fin_add_fin, JNum.fin_mul_fin, validatePower_fin,
        if_neg ht]
      ring_nf
  · unfold estimatePower
    exact validatePower_bounds _

/-- The entry stored by `Map.set` is in the resulting table. -/
theorem mapSet_mem (tbl : List (ℕ × TabEntry)) (id : ℕ) (e : TabEntry) :
    (id, e) ∈ mapSet tbl id e := by
  unfold mapSet
  by_cases h : tbl.any (fun p => p.1 = id)
  · rw [if_pos h]
    simp only [List.any_eq_true, decide_eq_true_eq] at h
    obtain ⟨p, hp, hid⟩ := h
    refine List.mem_map.mpr ⟨p, hp, ?_⟩
    rw [if_pos hid]
  · rw [if_neg h]
    exact List.mem_append_right _ (List.mem_singleton.mpr rfl)

/-- C8: every ingested reading is stored as its clamped validation — the
validated entry is in the table afterwards, each of its numeric fields lies
inside its declared domain (hence is a rational: never NaN or infinite, and
never negative), finite out-of-range values are clamped, with
`cpuPercent = 150` stored as 100 and a negative memory stored as 0 — for
every input field value, including the NaN that a non-number coerces to. -/
theorem C8_ingest_clamps_into_domain (now tabId : ℕ) (m : RawMetrics)
    (st : ProfilerState) :
    ((tabId, validatedEntry now m)
        ∈ (updatePageMetrics now tabId m st).pageMetrics)
    ∧ (0 ≤ (validatedEntry now m).cpu ∧ (validatedEntry now m).cpu ≤ 100
      ∧ 0 ≤ (validatedEntry now m).memory
      ∧ (validatedEntry now m).memory ≤ 10000
      ∧ 0 ≤ (validatedEntry now m).network
      ∧ (validatedEntry now m).network ≤ 1000
      ∧ 0 ≤ (validatedEntry now m).power
      ∧ (validatedEntry now m).power ≤ 100)
    ∧ (∀ q lo hi : ℚ, validateNumber (.fin q) lo hi = max lo (min hi q))
    ∧ validateNumber (.fin 150) 0 100 = 100
    ∧ validateNumber (.fin (-5)) 0 10000 = 0 := by
  refine ⟨?_, ?_, fun q lo hi => rfl, ?_, ?_⟩
  · unfold updatePageMetrics
    refine List.mem_filter.mpr ⟨mapSet_mem _ _ _, ?_⟩
    simp [validatedEntry]
  · refine ⟨(validateNumber_bounds m.cpu 0 100 (by norm_num)).1,
      (validateNumber_bounds m.cpu 0 100 (by norm_num)).2,
      (validateNumber_bounds m.memory 0 10000 (by norm_num)).1,
      (validateNumber_bounds m.memory 0 10000 (by norm_num)).2,
      (validateNumber_bounds m.network 0 1000 (by norm_num)).1,
      (validateNumber_bounds m.network 0 1000 (by norm_num)).2,
      (validateNumber_bounds m.power 0 100 (by norm_num)).1,
      (validateNumber_bounds m.power 0 100 (by norm_num)).2⟩
  · rw [validateNumber_fin]
    norm_num [min_def, max_def]
  · rw [validateNumber_fin]
    norm_num [min_def, max_def]

/-- C9 (counterexample): a NaN power input is sent by `validatePower` to
0.5 W and formatted as `500 mW` with precision 3 — not the claimed zero case
(`0 µW`); an energy of 0.0005 Wh lands in the µWh branch with precision 0,
not the claimed precision 3; and a power of 0 W is clamped up to the 0.1 W
floor and formatted as `100 mW`, not merely clamped to `>= 0`. -/
theorem C9_formatter_counterexample :
    formatPowerValue .nan = ⟨500, "mW", 3⟩
    ∧ (formatPowerValue .nan).value ≠ 0
    ∧ (formatPowerValue .nan).unit ≠ "µW"
    ∧ (formatEnergyValue (.fin (1/2000))).precision = 0
    ∧ formatPowerValue (.fin 0) = ⟨100, "mW", 3⟩ := by
  refine ⟨?_, ?_, ?_, ?_, ?_⟩ <;>
    first
    | (norm_num [formatPowerValue, formatEnergyValue, validatePower,
        validateNumber, min_def, max_def]; done)
    | (norm_num [formatPowerValue, formatEnergyValue, validatePower,
        validateNumber, min_def, max_def]; decide)

/-- C9 (amended): power input is first passed through `validatePower`
(clamped into `[0.1, 100]`, NaN/∞ → 0.5 W), so for power only the W and mW
branches are reachable, both with precision 3 and the validated magnitude
(scaled ×1000 for mW); energy input is clamped into `[0, 10^6]` with
NaN/∞ → 0, the four energy units follow the fixed thresholds with precision
3 for kWh/Wh/mWh and 0 for µWh, and an invalid energy maps to the zero case
`0 µWh`. -/
theorem C9_formatter_amended (p : JNum) :
    (1 ≤ validatePower p → formatPowerValue p = ⟨validatePower p, "W", 3⟩)
    ∧ (validatePower p < 1 →
        formatPowerValue p = ⟨validatePower p * 1000, "mW", 3⟩)
    ∧ formatEnergyValue .nan = ⟨0, "µWh", 0⟩
    ∧ formatEnergyValue .inf = ⟨0, "µWh", 0⟩
    ∧ (∀ q : ℚ, 1000 ≤ q → q ≤ 1000000 →
        formatEnergyValue (.fin q) = ⟨q / 1000, "kWh", 3⟩)
    ∧ (∀ q : ℚ, 1 ≤ q → q < 1000 →
        formatEnergyValue (.fin q) = ⟨q, "Wh", 3⟩)
    ∧ (∀ q : ℚ, 1/1000 ≤ q → q < 1 →
        formatEnergyValue (.fin q) = ⟨q * 1000, "mWh", 3⟩)
    ∧ (∀ q : ℚ, 0 ≤ q → q < 1/1000 →
        formatEnergyValue (.fin q) = ⟨q * 1000000, "µWh", 0⟩) := by
  have hb := validatePower_bounds p
  refine ⟨?_, ?_, ?_, ?_, ?_, ?_, ?_, ?_⟩
  · intro h1
    unfold formatPowerValue
    rw [if_neg (by intro hge; linarith [hb.2]), if_pos h1]
  · intro h1
    unfold formatPowerValue
    rw [if_neg (by intro hge; linarith [hb.2]),
      if_neg (by intro hge; linarith),
      if_pos (by show (1:ℚ)/1000 ≤ _; linarith [hb.1])]
  · norm_num [formatEnergyValue, validateNumber]
  · norm_num [formatEnergyValue, validateNumber]
  · intro q h1 h2
    unfold formatEnergyValue
    rw [validateNumber_fin, min_eq_right h2,
      max_eq_right (by linarith), if_pos (by exact h1)]
  · intro q h1 h2
    unfold formatEnergyValue
    rw [validateNumber_fin, min_eq_right (by linarith),
      max_eq_right (by linarith),
      if_neg (by intro hge; linarith), if_pos (by exact h1)]
  · intro q h1 h2
    unfold formatEnergyValue
    rw [validateNumber_fin, min_eq_right (by linarith),
      max_eq_right (by linarith),
      if_neg (by intro hge; linarith),
      if_neg (by intro hge; linarith), if_pos (by exact h1)]
  · intro q h1 h2
    unfold formatEnergyValue
    rw [validateNumber_fin, min_eq_right (by linarith),
      max_eq_right h1,
      if_neg (by intro hge; linarith),
      if_neg (by intro hge; linarith),
      if_neg (by intro hge; linarith)]

/-- C9 witness: the amended characterisation evaluated on concrete inputs in
each reachable branch. -/
theorem C9_formatter_amended_witness :
    formatPowerValue (.fin 50) = ⟨50, "W", 3⟩
    ∧ formatPowerValue (.fin (1/2)) = ⟨500, "mW", 3⟩
    ∧ formatEnergyValue (.fin 5000) = ⟨5, "kWh", 3⟩
    ∧ formatEnergyValue (.fin 5) = ⟨5, "Wh", 3⟩
    ∧ formatEnergyValue (.fin (1/100)) = ⟨10, "mWh", 3⟩
    ∧ formatEnergyValue (.fin (1/5000)) = ⟨200, "µWh", 0⟩ := by
  have h50 : validatePower (.fin 50) = 50 := by
    rw [validatePower_fin]; norm_num [min_def, max_def]
  have hhalf : validatePower (.fin (1/2)) = 1/2 := by
    rw [validatePower_fin]; norm_num [min_def, max_def]
  refine ⟨?_, ?_, ?_, ?_, ?_, ?_⟩
  · rw [(C9_formatter_amended (.fin 50)).1 (by rw [h50]; norm_num), h50]
  · rw [(C9_formatter_amended (.fin (1/2))).2.1 (by rw [hhalf]; norm_num),
      hhalf]
    norm_num
  · rw [(C9_formatter_amended .nan).2.2.2.2.1 5000 (by norm_num) (by norm_num)]
    norm_num
  · exact (C9_formatter_amended .nan).2.2.2.2.2.1 5 (by norm_num) (by norm_num)
  · rw [(C9_formatter_amended .nan).2.2.2.2.2.2.1 (1/100) (by norm_num)
      (by norm_num)]
    norm_num
  · rw [(C9_formatter_amended .nan).2.2.2.2.2.2.2 (1/5000) (by norm_num)
      (by norm_num)]
    norm_num

/-- C10: `startProfiling` while already profiling leaves the whole profiler
state unchanged (samples not reset, start time unchanged, no second timer),
and `stopProfiling` while not profiling leaves the state unchanged and
returns no summary. -/
theorem C10_start_stop_idempotent (now : ℕ) (st : ProfilerState) :
    (st.isProfiling = true → startProfiling now st = st)
    ∧ (st.isProfiling = false → stopProfiling st = (st, none)) := by
  constructor
  · intro h
    unfold startProfiling
    rw [if_pos h]
  · intro h
    unfold stopProfiling
    rw [if_pos h]

/-- C10 witness: a profiling state is untouched by `startProfiling`; a fresh
(non-profiling) profiler is untouched by `stopProfiling`, which returns no
summary. -/
theorem C10_start_stop_idempotent_witness :
    startProfiling 42 { initProfiler 7 with isProfiling := true }
      = { initProfiler 7 with isProfiling := true }
    ∧ stopProfiling (initProfiler 7) = (initProfiler 7, none) :=
  ⟨(C10_start_stop_idempotent 42
      { initProfiler 7 with isProfiling := true }).1 rfl,
   (C10_start_stop_idempotent 0 (initProfiler 7)).2 rfl⟩
